import Mathlib

/-!
Verification of the canvas drawing session and checkbox control of the
`native-windows-gui` binding layer, as a shallow embedding in Lean 4.

The embedding translates the two source files
`src/native-windows-gui/src/controls/canvas/canvas_draw.rs` and
`src/native-windows-gui/src/controls/check_box.rs`.  Native win32
primitives (window-helper calls, the `ControlHandle` tagged union, the
native button message semantics) are external collaborators of those
files; they are modelled from the specification's description of the
external interface, and each such definition is marked
`Modelled from the spec:` in its doc comment.

Machine integers (`u32`, `usize`, `HRESULT`) are modelled as `Nat` or
`Int`; no operation in the translated code can overflow on the values
involved, so no explicit wraparound is needed.  `f32` values are
modelled as `Rat` (the literals appearing in the code, `0.0` and `1.0`,
are exactly representable).  Opaque native handles (windows, brushes,
fonts, text formats) are modelled as `Nat`.
-/

namespace Nwg

/-! ## winapi constants

Numeric values of the win32 constants imported by the two source files
(`winapi` crate). -/

def S_OK : Int := 0

/-- `D2DERR_RECREATE_TARGET` is the HRESULT `0x8899000C`, i.e. the
`i32` value `-2003238900`. -/
def D2DERR_RECREATE_TARGET : Int := -2003238900

def WS_VISIBLE : Nat := 0x10000000

def WS_DISABLED : Nat := 0x08000000

def WS_CHILD : Nat := 0x40000000

def BS_AUTOCHECKBOX : Nat := 0x0003

def BS_AUTO3STATE : Nat := 0x0006

def BS_NOTIFY : Nat := 0x00004000

def BM_GETCHECK : Nat := 0x00F0

def BM_SETCHECK : Nat := 0x00F1

def BM_SETSTYLE : Nat := 0x00F4

def BST_UNCHECKED : Nat := 0

def BST_CHECKED : Nat := 1

def BST_INDETERMINATE : Nat := 2

def WM_CTLCOLORSTATIC : Nat := 0x0138

/-! ## Canvas data model (`canvas_draw.rs`) -/

/-- `CanvasError` from the canvas module: the typed outcome of ending a
drawing session. -/
inductive CanvasError where
  | RecreateTarget
  | Other (code : Int)
deriving DecidableEq, Repr

/-- `Matrix3x2F`: a 3x2 affine transform whose `f32` entries are
modelled as `Rat`. -/
structure Matrix3x2F where
  matrix : List (List Rat)
deriving DecidableEq, Repr

/-- `Rect` with `f32` coordinates modelled as `Rat`. -/
structure Rect where
  left : Rat
  top : Rat
  right : Rat
  bottom : Rat
deriving DecidableEq, Repr

/-- `MeasuringMode` variants of the text-drawing interface. -/
inductive MeasuringMode where
  | Natural
  | GdiClassic
  | GdiNatural
deriving DecidableEq, Repr

/-- `DrawTextOptions` bitflags, modelled by their bit word. -/
structure DrawTextOptions where
  bits : Nat
deriving DecidableEq, Repr

def DrawTextOptions.OPTIONS_NONE : DrawTextOptions := ⟨0⟩

/-- A native drawing command issued on the render target.  The trace of
commands a canvas method produces is its observable native effect. -/
inductive DrawCmd where
  | clear (color : Nat)
  | drawRectangle (r : Rect) (brush : Nat) (strokeWidth : Rat) (strokeStyle : Nat)
  | fillRectangle (r : Rect) (brush : Nat)
  | drawTextCmd (text : String) (fmt : Nat) (area : Rect) (brush : Nat)
      (options : DrawTextOptions) (measure : MeasuringMode)
deriving DecidableEq, Repr

/-- `CanvasDraw::end_draw` (canvas_draw.rs lines 29-43): the native
`EndDraw` call's status code is taken as input; the two diagnostic tags
are ignored by the match.  Translates the Rust
`match target.EndDraw(..) { S_OK => Ok(()), D2DERR_RECREATE_TARGET =>
Err(RecreateTarget), e => Err(Other(e)) }`. -/
def CanvasDraw.end_draw (code : Int) : Except CanvasError Unit :=
  if code = S_OK then .ok ()
  else if code = D2DERR_RECREATE_TARGET then .error .RecreateTarget
  else .error (.Other code)

/-- `CanvasDraw::transform` (canvas_draw.rs lines 56-67): returns the
transform installed on the render target by `SetTransform`.  The
`_current` argument is the target's transform before the call (unused,
since both branches overwrite it). -/
def CanvasDraw.transform (_current : Matrix3x2F) (t : Option Matrix3x2F) : Matrix3x2F :=
  match t with
  | none => { matrix := [[1, 0], [0, 1], [0, 0]] }
  | some m => m

/-- `CanvasDraw::draw_text` (canvas_draw.rs lines 115-117): the body is
empty in the source — no native command is issued. -/
def CanvasDraw.draw_text (_text : String) (_fmt : Nat) (_area : Rect) (_brush : Nat)
    (_options : DrawTextOptions) (_measure : MeasuringMode) : List DrawCmd :=
  []

/-- `CanvasDraw::draw_simple_text` (canvas_draw.rs lines 127-143):
builds `Rect { left: pos.0, top: pos.1, right: 1.0, bottom: 1.0 }` and
delegates to `draw_text` with `OPTIONS_NONE` and `Natural`. -/
def CanvasDraw.draw_simple_text (text : String) (fmt : Nat) (pos : Rat × Rat)
    (brush : Nat) : List DrawCmd :=
  let area : Rect := { left := pos.1, top := pos.2, right := 1, bottom := 1 }
  CanvasDraw.draw_text text fmt area brush DrawTextOptions.OPTIONS_NONE MeasuringMode.Natural

/-- The layout rectangle `draw_simple_text` computes for a position
(the `let area` binding of canvas_draw.rs lines 128-133), named so the
spec's description of that rectangle can be compared against it. -/
def CanvasDraw.simple_text_area (pos : Rat × Rat) : Rect :=
  { left := pos.1, top := pos.2, right := 1, bottom := 1 }

/-! ## Control handle and native window model (`check_box.rs`) -/

/-- Modelled from the spec: `ControlHandle` is "a tagged union over
representations of a bound foreign object (none/unbound, native window
handle, other handle kinds)"; its definition lives outside the two
provided source files.  `Hwnd` carries the native window handle; every
non-window handle kind is collapsed into `OtherKind`. -/
inductive ControlHandle where
  | NoHandle
  | Hwnd (h : Nat)
  | OtherKind (k : Nat)
deriving DecidableEq, Repr

/-- Modelled from the spec: `ControlHandle::blank` tests the unbound
variant. -/
def ControlHandle.blank : ControlHandle → Bool
  | .NoHandle => true
  | _ => false

/-- Modelled from the spec: `ControlHandle::hwnd` extracts the native
window handle when the handle is bound to a window. -/
def ControlHandle.hwnd : ControlHandle → Option Nat
  | .Hwnd h => some h
  | _ => none

/-- `CheckBox` (check_box.rs lines 35-37): owns a `ControlHandle` and
nothing else. -/
structure CheckBox where
  handle : ControlHandle
deriving DecidableEq, Repr

/-- The panic message `NOT_BOUND` of check_box.rs line 6. -/
def NOT_BOUND : String := "CheckBox is not yet bound to a winapi object"

/-- The panic message `BAD_HANDLE` of check_box.rs line 7. -/
def BAD_HANDLE : String := "INTERNAL ERROR: CheckBox handle is not HWND!"

/-- The message of Rust's `unreachable!` macro, raised by `check_state`
on an unrecognized native check code. -/
def UNREACHABLE_MSG : String := "internal error: entered unreachable code"

/-- Modelled from the spec: the observable state of the native window a
bound control proxies.  The spec's external interface (§6) lists the
window-handle primitive set these fields back: style, check state (via
send-message), font, focus, enabled, visible, size, position, text and
parent. -/
structure NativeWindow where
  style : Nat
  checkCode : Nat
  fontHandle : Nat
  focused : Bool
  enabled : Bool
  visible : Bool
  winSize : Nat × Nat
  winPos : Int × Int
  winText : String
  parent : Nat
deriving DecidableEq, Repr

/-- A record of one call into the native window-helper layer; the list
of such calls a method produces is its observable native effect. -/
inductive NativeCall where
  | getStyle (h : Nat)
  | sendMessage (h msg wp lp : Nat)
  | getWindowFont (h : Nat)
  | setWindowFont (h : Nat) (f : Option Nat)
  | getFocus (h : Nat)
  | setFocus (h : Nat)
  | getWindowEnabled (h : Nat)
  | setWindowEnabled (h : Nat) (v : Bool)
  | getWindowVisibility (h : Nat)
  | setWindowVisibility (h : Nat) (v : Bool)
  | getWindowSize (h : Nat)
  | setWindowSize (h : Nat) (x y : Nat)
  | getWindowPosition (h : Nat)
  | setWindowPosition (h : Nat) (x y : Int)
  | getWindowText (h : Nat)
  | setWindowText (h : Nat) (t : String)
  | getWindowParent (h : Nat)
  | createSolidBrush (r g b : Nat)
  | bindRawEventHandler (parent h : Nat)
  | createWindow (className : Option String) (forcedFlags flags : Nat)
      (size : Int × Int) (pos : Int × Int) (text : String) (parent : ControlHandle)
deriving DecidableEq, Repr

/-- The outcome of one control method: either a Rust panic (with the
panic message and the native calls made before panicking), or a normal
return carrying the value, the native window's state after the call and
the list of native calls made. -/
inductive MethodOutcome (α : Type) where
  | panicked (msg : String) (calls : List NativeCall)
  | ok (value : α) (window : NativeWindow) (calls : List NativeCall)

/-- Whether the outcome is one of the two handle-binding panics
(`NOT_BOUND` / `BAD_HANDLE`), as opposed to a normal return or another
panic. -/
def MethodOutcome.isBindingPanic : MethodOutcome α → Bool
  | .panicked msg _ => msg == NOT_BOUND || msg == BAD_HANDLE
  | .ok _ _ _ => false

/-- Modelled from the spec: `wh::send_message` plus the native button's
message semantics (external interface §6).  `BM_GETCHECK` reports the
stored check code; `BM_SETCHECK` stores the given code; `BM_SETSTYLE`
replaces the button-type bits (the low style nibble) with the given
style; every other message leaves the window unchanged. -/
def wh.send_message (w : NativeWindow) (msg wp _lp : Nat) : Nat × NativeWindow :=
  if msg = BM_GETCHECK then (w.checkCode, w)
  else if msg = BM_SETCHECK then (0, { w with checkCode := wp })
  else if msg = BM_SETSTYLE then (0, { w with style := w.style / 16 * 16 + wp })
  else (0, w)

/-- Modelled from the spec: `wh::get_style` reads the window style. -/
def wh.get_style (w : NativeWindow) : Nat :=
  w.style

/-- Modelled from the spec: `wh::get_window_parent`. -/
def wh.get_window_parent (w : NativeWindow) : Nat :=
  w.parent

/-- Modelled from the spec: the `RGB` macro packing three byte channels
into a color word; the brush handle `CreateSolidBrush` returns is
identified with that color word. -/
def RGB (r g b : Nat) : Nat :=
  r + 256 * g + 65536 * b

/-! ## CheckBox state and methods (`check_box.rs`) -/

/-- `CheckBoxState` (check_box.rs lines 20-26). -/
inductive CheckBoxState where
  | Checked
  | Unchecked
  | Indeterminate
deriving DecidableEq, Repr

/-- The `match state { .. }` of `set_check_state` (check_box.rs lines
103-107), mapping a `CheckBoxState` to its native `BST_*` code. -/
def bst_code (state : CheckBoxState) : Nat :=
  match state with
  | .Unchecked => BST_UNCHECKED
  | .Checked => BST_CHECKED
  | .Indeterminate => BST_INDETERMINATE

/-- `CheckBox::tristate` (check_box.rs lines 55-62). -/
def CheckBox.tristate (cb : CheckBox) (w : NativeWindow) : MethodOutcome Bool :=
  if cb.handle.blank then .panicked NOT_BOUND [] else
  match cb.handle.hwnd with
  | none => .panicked BAD_HANDLE []
  | some handle =>
    let style := wh.get_style w
    .ok (style &&& BS_AUTO3STATE == BS_AUTO3STATE) w [.getStyle handle]

/-- `CheckBox::set_tristate` (check_box.rs lines 65-78). -/
def CheckBox.set_tristate (cb : CheckBox) (w : NativeWindow) (tri : Bool) :
    MethodOutcome Unit :=
  if cb.handle.blank then .panicked NOT_BOUND [] else
  match cb.handle.hwnd with
  | none => .panicked BAD_HANDLE []
  | some handle =>
    let style := match tri with
      | true => BS_AUTO3STATE
      | false => BS_AUTOCHECKBOX
    let r := wh.send_message w BM_SETSTYLE style 1
    .ok () r.2 [.sendMessage handle BM_SETSTYLE style 1]

/-- `CheckBox::check_state` (check_box.rs lines 81-93): sends
`BM_GETCHECK` and matches the returned code against `BST_UNCHECKED`,
`BST_CHECKED`, `BST_INDETERMINATE`, with `unreachable!` as the
catch-all arm. -/
def CheckBox.check_state (cb : CheckBox) (w : NativeWindow) :
    MethodOutcome CheckBoxState :=
  if cb.handle.blank then .panicked NOT_BOUND [] else
  match cb.handle.hwnd with
  | none => .panicked BAD_HANDLE []
  | some handle =>
    let r := wh.send_message w BM_GETCHECK 0 0
    if r.1 = BST_UNCHECKED then .ok .Unchecked r.2 [.sendMessage handle BM_GETCHECK 0 0]
    else if r.1 = BST_CHECKED then .ok .Checked r.2 [.sendMessage handle BM_GETCHECK 0 0]
    else if r.1 = BST_INDETERMINATE then
      .ok .Indeterminate r.2 [.sendMessage handle BM_GETCHECK 0 0]
    else .panicked UNREACHABLE_MSG [.sendMessage handle BM_GETCHECK 0 0]

/-- `CheckBox::set_check_state` (check_box.rs lines 96-110). -/
def CheckBox.set_check_state (cb : CheckBox) (w : NativeWindow) (state : CheckBoxState) :
    MethodOutcome Unit :=
  if cb.handle.blank then .panicked NOT_BOUND [] else
  match cb.handle.hwnd with
  | none => .panicked BAD_HANDLE []
  | some handle =>
    let x := bst_code state
    let r := wh.send_message w BM_SETCHECK x 0
    .ok () r.2 [.sendMessage handle BM_SETCHECK x 0]

/-- `CheckBox::font` (check_box.rs lines 113-123): a null font handle
is reported as `none`. -/
def CheckBox.font (cb : CheckBox) (w : NativeWindow) : MethodOutcome (Option Nat) :=
  if cb.handle.blank then .panicked NOT_BOUND [] else
  match cb.handle.hwnd with
  | none => .panicked BAD_HANDLE []
  | some handle =>
    let font_handle := w.fontHandle
    if font_handle = 0 then .ok none w [.getWindowFont handle]
    else .ok (some font_handle) w [.getWindowFont handle]

/-- `CheckBox::set_font` (check_box.rs lines 126-130); the native side
stores a null handle when the font is cleared. -/
def CheckBox.set_font (cb : CheckBox) (w : NativeWindow) (font : Option Nat) :
    MethodOutcome Unit :=
  if cb.handle.blank then .panicked NOT_BOUND [] else
  match cb.handle.hwnd with
  | none => .panicked BAD_HANDLE []
  | some handle =>
    .ok () { w with fontHandle := font.getD 0 } [.setWindowFont handle font]

/-- `CheckBox::focus` (check_box.rs lines 133-137). -/
def CheckBox.focus (cb : CheckBox) (w : NativeWindow) : MethodOutcome Bool :=
  if cb.handle.blank then .panicked NOT_BOUND [] else
  match cb.handle.hwnd with
  | none => .panicked BAD_HANDLE []
  | some handle => .ok w.focused w [.getFocus handle]

/-- `CheckBox::set_focus` (check_box.rs lines 140-144). -/
def CheckBox.set_focus (cb : CheckBox) (w : NativeWindow) : MethodOutcome Unit :=
  if cb.handle.blank then .panicked NOT_BOUND [] else
  match cb.handle.hwnd with
  | none => .panicked BAD_HANDLE []
  | some handle => .ok () { w with focused := true } [.setFocus handle]

/-- `CheckBox::enabled` (check_box.rs lines 147-151). -/
def CheckBox.enabled (cb : CheckBox) (w : NativeWindow) : MethodOutcome Bool :=
  if cb.handle.blank then .panicked NOT_BOUND [] else
  match cb.handle.hwnd with
  | none => .panicked BAD_HANDLE []
  | some handle => .ok w.enabled w [.getWindowEnabled handle]

/-- `CheckBox::set_enabled` (check_box.rs lines 154-158). -/
def CheckBox.set_enabled (cb : CheckBox) (w : NativeWindow) (v : Bool) :
    MethodOutcome Unit :=
  if cb.handle.blank then .panicked NOT_BOUND [] else
  match cb.handle.hwnd with
  | none => .panicked BAD_HANDLE []
  | some handle => .ok () { w with enabled := v } [.setWindowEnabled handle v]

/-- `CheckBox::visible` (check_box.rs lines 162-166). -/
def CheckBox.visible (cb : CheckBox) (w : NativeWindow) : MethodOutcome Bool :=
  if cb.handle.blank then .panicked NOT_BOUND [] else
  match cb.handle.hwnd with
  | none => .panicked BAD_HANDLE []
  | some handle => .ok w.visible w [.getWindowVisibility handle]

/-- `CheckBox::set_visible` (check_box.rs lines 169-173). -/
def CheckBox.set_visible (cb : CheckBox) (w : NativeWindow) (v : Bool) :
    MethodOutcome Unit :=
  if cb.handle.blank then .panicked NOT_BOUND [] else
  match cb.handle.hwnd with
  | none => .panicked BAD_HANDLE []
  | some handle => .ok () { w with visible := v } [.setWindowVisibility handle v]

/-- `CheckBox::size` (check_box.rs lines 176-180). -/
def CheckBox.size (cb : CheckBox) (w : NativeWindow) : MethodOutcome (Nat × Nat) :=
  if cb.handle.blank then .panicked NOT_BOUND [] else
  match cb.handle.hwnd with
  | none => .panicked BAD_HANDLE []
  | some handle => .ok w.winSize w [.getWindowSize handle]

/-- `CheckBox::set_size` (check_box.rs lines 183-187). -/
def CheckBox.set_size (cb : CheckBox) (w : NativeWindow) (x y : Nat) :
    MethodOutcome Unit :=
  if cb.handle.blank then .panicked NOT_BOUND [] else
  match cb.handle.hwnd with
  | none => .panicked BAD_HANDLE []
  | some handle => .ok () { w with winSize := (x, y) } [.setWindowSize handle x y]

/-- `CheckBox::position` (check_box.rs lines 190-194). -/
def CheckBox.position (cb : CheckBox) (w : NativeWindow) : MethodOutcome (Int × Int) :=
  if cb.handle.blank then .panicked NOT_BOUND [] else
  match cb.handle.hwnd with
  | none => .panicked BAD_HANDLE []
  | some handle => .ok w.winPos w [.getWindowPosition handle]

/-- `CheckBox::set_position` (check_box.rs lines 197-201). -/
def CheckBox.set_position (cb : CheckBox) (w : NativeWindow) (x y : Int) :
    MethodOutcome Unit :=
  if cb.handle.blank then .panicked NOT_BOUND [] else
  match cb.handle.hwnd with
  | none => .panicked BAD_HANDLE []
  | some handle => .ok () { w with winPos := (x, y) } [.setWindowPosition handle x y]

/-- `CheckBox::text` (check_box.rs lines 204-208). -/
def CheckBox.text (cb : CheckBox) (w : NativeWindow) : MethodOutcome String :=
  if cb.handle.blank then .panicked NOT_BOUND [] else
  match cb.handle.hwnd with
  | none => .panicked BAD_HANDLE []
  | some handle => .ok w.winText w [.getWindowText handle]

/-- `CheckBox::set_text` (check_box.rs lines 211-215). -/
def CheckBox.set_text (cb : CheckBox) (w : NativeWindow) (v : String) :
    MethodOutcome Unit :=
  if cb.handle.blank then .panicked NOT_BOUND [] else
  match cb.handle.hwnd with
  | none => .panicked BAD_HANDLE []
  | some handle => .ok () { w with winText := v } [.setWindowText handle v]

/-- `CheckBox::class_name` (check_box.rs lines 218-220). -/
def CheckBox.class_name (_cb : CheckBox) : Option String :=
  some "BUTTON"

/-- `CheckBox::flags` (check_box.rs lines 223-225): default creation
flags. -/
def CheckBox.flags (_cb : CheckBox) : Nat :=
  WS_VISIBLE

/-- `CheckBox::forced_flags` (check_box.rs lines 228-232). -/
def CheckBox.forced_flags (_cb : CheckBox) : Nat :=
  BS_NOTIFY ||| WS_CHILD

/-- The closure `hook_background_color` passes to
`bind_raw_event_handler` (check_box.rs lines 247-259): on
`WM_CTLCOLORSTATIC` whose `lparam` names this control's handle it
returns the captured brush, otherwise it falls through to `None`. -/
def CheckBox.background_color_handler (handle brush : Nat)
    (_hwnd msg _wp lp : Nat) : Option Nat :=
  if msg = WM_CTLCOLORSTATIC then
    (if lp = handle then some brush else none)
  else none

/-- `CheckBox::hook_background_color` (check_box.rs lines 235-260):
reads the parent window, creates a solid brush of the given color and
registers `background_color_handler` on the parent; the registered
interceptor is returned as the value. -/
def CheckBox.hook_background_color (cb : CheckBox) (w : NativeWindow)
    (c : Nat × Nat × Nat) : MethodOutcome (Nat → Nat → Nat → Nat → Option Nat) :=
  if cb.handle.blank then .panicked NOT_BOUND [] else
  match cb.handle.hwnd with
  | none => .panicked BAD_HANDLE []
  | some handle =>
    let parent := wh.get_window_parent w
    let brush := RGB c.1 c.2.1 c.2.2
    .ok (CheckBox.background_color_handler handle brush) w
      [.getWindowParent handle, .createSolidBrush c.1 c.2.1 c.2.2,
       .bindRawEventHandler parent handle]

/-! ## CheckBoxBuilder (`check_box.rs`) -/

/-- `CheckBoxFlags` (check_box.rs lines 10-16): a bitflags type over
`VISIBLE = WS_VISIBLE`, `DISABLED = WS_DISABLED` and
`TRISTATE = BS_AUTO3STATE`, modelled by which of the three named flags
are present. -/
structure CheckBoxFlags where
  visible : Bool
  disabled : Bool
  tristate : Bool
deriving DecidableEq, Repr

/-- `CheckBoxFlags::bits`: the `u32` word of the flag combination. -/
def CheckBoxFlags.bits (f : CheckBoxFlags) : Nat :=
  (if f.visible then WS_VISIBLE else 0) |||
  (if f.disabled then WS_DISABLED else 0) |||
  (if f.tristate then BS_AUTO3STATE else 0)

/-- Modelled from the spec: `SystemError` construction outcomes — the
missing-parent failure and the underlying native creation failure
(spec §7); the enum's definition lives outside the provided sources. -/
inductive SystemError where
  | ControlWithoutParent
  | WindowCreationFailed
deriving DecidableEq, Repr

/-- `CheckBoxBuilder` (check_box.rs lines 264-273).  The `&Font`
reference is modelled by its native font handle. -/
structure CheckBoxBuilder where
  text : String
  size : Int × Int
  position : Int × Int
  background_color : Option (Nat × Nat × Nat)
  check_state : CheckBoxState
  flags : Option CheckBoxFlags
  font : Option Nat
  parent : Option ControlHandle
deriving DecidableEq, Repr

/-- `CheckBox::builder` (check_box.rs lines 41-52): the default builder
values. -/
def CheckBox.builder : CheckBoxBuilder :=
  { text := "A checkbox"
    size := (100, 25)
    position := (0, 0)
    background_color := none
    check_state := .Unchecked
    flags := none
    font := none
    parent := none }

/-- The flag resolution at the top of `CheckBoxBuilder::build`
(check_box.rs lines 318-321): caller flags if present else the
control's default flags, then `BS_AUTOCHECKBOX` is or-ed in when the
`BS_AUTO3STATE` bits are absent. -/
def CheckBoxBuilder.resolved_flags (b : CheckBoxBuilder) (out : CheckBox) : Nat :=
  let flags := (b.flags.map CheckBoxFlags.bits).getD (CheckBox.flags out)
  if flags &&& BS_AUTO3STATE = 0 then flags ||| BS_AUTOCHECKBOX else flags

/-- The outcome of `CheckBoxBuilder::build`: a panic, or the returned
`Result` together with the final `out` control, the native window state
and the native calls made, in order. -/
inductive BuildOutcome where
  | panicked (msg : String) (calls : List NativeCall)
  | ok (result : Except SystemError Unit) (out : CheckBox)
      (window : NativeWindow) (calls : List NativeCall)
deriving Repr

/-- `CheckBoxBuilder::build` (check_box.rs lines 317-349).  The native
`ControlBase::build_hwnd()...build()` call is external; its outcome is
the `create` argument (the fresh window handle, or the creation
error).  The parent check precedes the creation call (`?` on the
parent match), the creation call precedes the conditional font
application, which precedes the conditional background-color hook,
which precedes the initial `set_check_state`. -/
def CheckBoxBuilder.build (b : CheckBoxBuilder) (out : CheckBox) (w : NativeWindow)
    (create : Except SystemError Nat) : BuildOutcome :=
  let flags := CheckBoxBuilder.resolved_flags b out
  match b.parent with
  | none => .ok (.error .ControlWithoutParent) out w []
  | some parent =>
    let cw : NativeCall := .createWindow (CheckBox.class_name out)
      (CheckBox.forced_flags out) flags b.size b.position b.text parent
    match create with
    | .error e => .ok (.error e) out w [cw]
    | .ok h =>
      let out2 : CheckBox := { out with handle := .Hwnd h }
      match (if b.font.isSome then CheckBox.set_font out2 w b.font
             else .ok () w []) with
      | .panicked m c => .panicked m (cw :: c)
      | .ok _ w1 c1 =>
        match (match b.background_color with
               | some col =>
                 match CheckBox.hook_background_color out2 w1 col with
                 | .panicked m c => MethodOutcome.panicked m c
                 | .ok _ w' c => MethodOutcome.ok () w' c
               | none => .ok () w1 []) with
        | .panicked m c => .panicked m (cw :: c1 ++ c)
        | .ok _ w2 c2 =>
          match CheckBox.set_check_state out2 w2 b.check_state with
          | .panicked m c => .panicked m (cw :: c1 ++ c2 ++ c)
          | .ok _ w3 c3 => .ok (.ok ()) out2 w3 (cw :: (c1 ++ c2 ++ c3))

/-- A concrete native window used to instantiate theorems on sample
inputs. -/
def sampleWindow : NativeWindow :=
  { style := WS_VISIBLE
    checkCode := 0
    fontHandle := 0
    focused := false
    enabled := true
    visible := true
    winSize := (100, 25)
    winPos := (0, 0)
    winText := "A checkbox"
    parent := 7 }

/-- A concrete native window whose style has the tristate bits set. -/
def sampleTristateWindow : NativeWindow :=
  { sampleWindow with style := WS_VISIBLE ||| BS_AUTO3STATE }

/-! ## Theorems for the claims -/

/-- C1: `end_draw` maps the native end-of-bracket status exactly as:
the success code yields `Ok(())`, the "target lost" code yields
`Err(RecreateTarget)`, and every other code `c` yields
`Err(Other(c))`; the recreate-target code never yields `Other`. -/
theorem end_draw_maps_native_codes :
    (∀ c : Int, c = S_OK → CanvasDraw.end_draw c = .ok ()) ∧
    (∀ c : Int, c = D2DERR_RECREATE_TARGET →
      CanvasDraw.end_draw c = .error CanvasError.RecreateTarget) ∧
    (∀ c : Int, c ≠ S_OK → c ≠ D2DERR_RECREATE_TARGET →
      CanvasDraw.end_draw c = .error (CanvasError.Other c)) ∧
    (∀ x : Int,
      CanvasDraw.end_draw D2DERR_RECREATE_TARGET ≠ .error (CanvasError.Other x)) := by
  refine ⟨?_, ?_, ?_, ?_⟩
  · intro c hc
    simp [CanvasDraw.end_draw, hc]
  · intro c hc
    subst hc
    simp [CanvasDraw.end_draw, S_OK, D2DERR_RECREATE_TARGET]
  · intro c h1 h2
    simp [CanvasDraw.end_draw, h1, h2]
  · intro x
    simp [CanvasDraw.end_draw, S_OK, D2DERR_RECREATE_TARGET]

/-- Witness for C1: the three regimes of `end_draw` at the concrete
codes `0`, `-2003238900` and `5`. -/
theorem end_draw_maps_native_codes_witness :
    CanvasDraw.end_draw 0 = .ok () ∧
    CanvasDraw.end_draw (-2003238900) = .error CanvasError.RecreateTarget ∧
    CanvasDraw.end_draw 5 = .error (CanvasError.Other 5) :=
  ⟨end_draw_maps_native_codes.1 0 rfl,
   end_draw_maps_native_codes.2.1 (-2003238900) rfl,
   end_draw_maps_native_codes.2.2.1 5 (by decide) (by decide)⟩

/-- C4 counterexample: at position `(5, 5)` the layout rectangle
computed by `draw_simple_text` is `{left: 5, top: 5, right: 1,
bottom: 1}` — its width `right - left` is `-4`, not `1`, so it is not
a 1×1 box anchored at the position. -/
theorem simple_text_area_counterexample :
    CanvasDraw.simple_text_area (5, 5) =
      { left := 5, top := 5, right := 1, bottom := 1 } ∧
    ¬ ((CanvasDraw.simple_text_area (5, 5)).right -
        (CanvasDraw.simple_text_area (5, 5)).left = 1 ∧
       (CanvasDraw.simple_text_area (5, 5)).bottom -
        (CanvasDraw.simple_text_area (5, 5)).top = 1) := by
  refine ⟨rfl, ?_⟩
  intro h
  have := h.1
  norm_num [CanvasDraw.simple_text_area] at this

/-- C4 (amended): for every position `(x, y)`, `draw_simple_text`
computes the layout rectangle with `left = x`, `top = y` and the fixed
absolute corner `right = 1`, `bottom = 1` (a 1×1 box only when the
position is the origin), and delegates to `draw_text` with that
rectangle, `OPTIONS_NONE` and `Natural` measuring. -/
theorem draw_simple_text_delegates :
    ∀ (text : String) (fmt : Nat) (pos : Rat × Rat) (brush : Nat),
      CanvasDraw.simple_text_area pos =
        { left := pos.1, top := pos.2, right := 1, bottom := 1 } ∧
      CanvasDraw.draw_simple_text text fmt pos brush =
        CanvasDraw.draw_text text fmt (CanvasDraw.simple_text_area pos) brush
          DrawTextOptions.OPTIONS_NONE MeasuringMode.Natural := by
  intro text fmt pos brush
  exact ⟨rfl, rfl⟩

/-- C5: `draw_text` issues no native command whatsoever — its body is
empty, so for every input the trace of drawing commands is empty,
contradicting the specified contract that a text-drawing command is
issued. -/
theorem draw_text_is_noop :
    ∀ (text : String) (fmt : Nat) (area : Rect) (brush : Nat)
      (options : DrawTextOptions) (measure : MeasuringMode),
      CanvasDraw.draw_text text fmt area brush options measure = [] := by
  intro text fmt area brush options measure
  rfl

/-- C7: `transform(None)` installs exactly the identity affine matrix
`[[1,0],[0,1],[0,0]]` on the render target, and `transform(Some(t))`
installs `t`. -/
theorem transform_none_is_identity :
    (∀ current : Matrix3x2F,
      CanvasDraw.transform current none = { matrix := [[1, 0], [0, 1], [0, 0]] }) ∧
    (∀ (current t : Matrix3x2F), CanvasDraw.transform current (some t) = t) :=
  ⟨fun _ => rfl, fun _ _ => rfl⟩

/-- C2: for every caller flag combination (including none, where the
default flags are used), the style word `build` resolves — and the
style word passed to native creation once the forced flags are or-ed
in — has exactly one of the tristate style bits (`BS_AUTO3STATE`) and
the standard checkbox style bits (`BS_AUTOCHECKBOX`) set: never both,
never neither. -/
theorem build_style_bits_exclusive :
    ∀ (b : CheckBoxBuilder) (out : CheckBox),
      ((CheckBoxBuilder.resolved_flags b out &&& BS_AUTO3STATE = BS_AUTO3STATE ∧
        ¬ (CheckBoxBuilder.resolved_flags b out &&& BS_AUTOCHECKBOX = BS_AUTOCHECKBOX)) ∨
       (CheckBoxBuilder.resolved_flags b out &&& BS_AUTOCHECKBOX = BS_AUTOCHECKBOX ∧
        ¬ (CheckBoxBuilder.resolved_flags b out &&& BS_AUTO3STATE = BS_AUTO3STATE))) ∧
      ((let s := CheckBoxBuilder.resolved_flags b out ||| CheckBox.forced_flags out
        (s &&& BS_AUTO3STATE = BS_AUTO3STATE ∧
         ¬ (s &&& BS_AUTOCHECKBOX = BS_AUTOCHECKBOX)) ∨
        (s &&& BS_AUTOCHECKBOX = BS_AUTOCHECKBOX ∧
         ¬ (s &&& BS_AUTO3STATE = BS_AUTO3STATE)))) := by
  intro b out
  rcases hfl : b.flags with _ | ⟨v, d, t⟩
  · simp only [CheckBoxBuilder.resolved_flags, hfl, Option.map_none', Option.getD_none,
      CheckBox.flags, CheckBox.forced_flags]
    decide
  · cases v <;> cases d <;> cases t <;>
      · simp only [CheckBoxBuilder.resolved_flags, hfl, Option.map_some', Option.getD_some,
          CheckBoxFlags.bits, CheckBox.flags, CheckBox.forced_flags]
        decide

/-- C3: when no parent handle was supplied, `build` returns
`Err(ControlWithoutParent)`; no native call at all is made (empty call
trace), the `out` control keeps its previous (unbound) handle and the
native window state is untouched — regardless of what the native
creation call would have produced. -/
theorem build_without_parent :
    ∀ (b : CheckBoxBuilder) (out : CheckBox) (w : NativeWindow)
      (create : Except SystemError Nat),
      b.parent = none →
      CheckBoxBuilder.build b out w create =
        .ok (.error SystemError.ControlWithoutParent) out w [] := by
  intro b out w create hp
  rw [CheckBoxBuilder.build, hp]

/-- Witness for C3: the default builder (which has no parent) at a
concrete control and window. -/
theorem build_without_parent_witness :
    CheckBoxBuilder.build CheckBox.builder ⟨ControlHandle.NoHandle⟩ sampleWindow
        (.ok 4) =
      .ok (.error SystemError.ControlWithoutParent) ⟨ControlHandle.NoHandle⟩
        sampleWindow [] :=
  build_without_parent CheckBox.builder ⟨ControlHandle.NoHandle⟩ sampleWindow
    (.ok 4) rfl

/-- C9: on successful construction `build` makes exactly these native
calls, in this order: the window creation (with class name, forced
flags, resolved flags, size, position, text and parent), then the font
application when a font was supplied, then the background-color hook
installation (parent lookup, brush creation, handler registration)
when a background color was supplied, then the initial check state
message; and the `out` control ends bound to the fresh handle. -/
theorem build_success_order :
    ∀ (b : CheckBoxBuilder) (out : CheckBox) (w : NativeWindow)
      (p : ControlHandle) (h : Nat),
      b.parent = some p →
      ∃ w', CheckBoxBuilder.build b out w (.ok h) =
        .ok (.ok ()) { out with handle := .Hwnd h } w'
          (NativeCall.createWindow (CheckBox.class_name out)
             (CheckBox.forced_flags out) (CheckBoxBuilder.resolved_flags b out)
             b.size b.position b.text p ::
           ((if b.font.isSome then [NativeCall.setWindowFont h b.font] else []) ++
            (match b.background_color with
             | some c => [NativeCall.getWindowParent h,
                          NativeCall.createSolidBrush c.1 c.2.1 c.2.2,
                          NativeCall.bindRawEventHandler w.parent h]
             | none => []) ++
            [NativeCall.sendMessage h BM_SETCHECK (bst_code b.check_state) 0])) := by
  intro b out w p h hp
  rcases b with ⟨text, size, pos, bg, cs, fl, fo, pa⟩
  cases hp
  rcases fo with _ | f <;> rcases bg with _ | c <;> exact ⟨_, rfl⟩

/-- Witness for C9: a concrete builder with a parent, a font and a
background color produces exactly the creation call, the font call,
the three hook-installation calls and the check-state message, in that
order. -/
theorem build_success_order_witness :
    ∃ w', CheckBoxBuilder.build
        { CheckBox.builder with
            parent := some (ControlHandle.Hwnd 9)
            font := some 5
            background_color := some (1, 2, 3)
            check_state := CheckBoxState.Indeterminate }
        ⟨ControlHandle.NoHandle⟩ sampleWindow (.ok 4) =
      .ok (.ok ()) ⟨ControlHandle.Hwnd 4⟩ w'
        [NativeCall.createWindow (some "BUTTON") (BS_NOTIFY ||| WS_CHILD)
           (WS_VISIBLE ||| BS_AUTOCHECKBOX) (100, 25) (0, 0) "A checkbox"
           (ControlHandle.Hwnd 9),
         NativeCall.setWindowFont 4 (some 5),
         NativeCall.getWindowParent 4,
         NativeCall.createSolidBrush 1 2 3,
         NativeCall.bindRawEventHandler 7 4,
         NativeCall.sendMessage 4 BM_SETCHECK 2 0] :=
  build_success_order _ ⟨ControlHandle.NoHandle⟩ sampleWindow
    (ControlHandle.Hwnd 9) 4 rfl

/-- C6: on a bound control whose native style has the tristate bits
set, `set_check_state(s)` stores the code of `s` and a following
`check_state()` returns exactly `s`, for every `s` in {Checked,
Unchecked, Indeterminate}; and on a native window without the tristate
style — whose stored check code the native layer confines to
`BST_UNCHECKED` or `BST_CHECKED` — `check_state()` can never return
`Indeterminate`. -/
theorem check_state_round_trip :
    (∀ (h : Nat) (w : NativeWindow) (s : CheckBoxState),
      w.style &&& BS_AUTO3STATE = BS_AUTO3STATE →
      CheckBox.set_check_state ⟨.Hwnd h⟩ w s =
        .ok () { w with checkCode := bst_code s }
          [.sendMessage h BM_SETCHECK (bst_code s) 0] ∧
      CheckBox.check_state ⟨.Hwnd h⟩ { w with checkCode := bst_code s } =
        .ok s { w with checkCode := bst_code s }
          [.sendMessage h BM_GETCHECK 0 0]) ∧
    (∀ (h : Nat) (w : NativeWindow),
      w.checkCode = BST_UNCHECKED ∨ w.checkCode = BST_CHECKED →
      ∀ (w' : NativeWindow) (c : List NativeCall),
        CheckBox.check_state ⟨.Hwnd h⟩ w ≠
          .ok CheckBoxState.Indeterminate w' c) := by
  constructor
  · intro h w s _
    cases s <;> exact ⟨rfl, rfl⟩
  · intro h w hcode w' c heq
    rcases hcode with h0 | h1
    · simp [CheckBox.check_state, ControlHandle.blank, ControlHandle.hwnd,
        wh.send_message, h0, BST_UNCHECKED, BST_CHECKED, BST_INDETERMINATE,
        BM_GETCHECK, BM_SETCHECK, BM_SETSTYLE] at heq
    · simp [CheckBox.check_state, ControlHandle.blank, ControlHandle.hwnd,
        wh.send_message, h1, BST_UNCHECKED, BST_CHECKED, BST_INDETERMINATE,
        BM_GETCHECK, BM_SETCHECK, BM_SETSTYLE] at heq

/-- Witness for C6: the round trip through `Indeterminate` on a
concrete tristate window, and `check_state` on a concrete
checked non-tristate window differing from `Indeterminate`. -/
theorem check_state_round_trip_witness :
    (CheckBox.set_check_state ⟨ControlHandle.Hwnd 2⟩ sampleTristateWindow
        CheckBoxState.Indeterminate =
      .ok () { sampleTristateWindow with checkCode := 2 }
        [.sendMessage 2 BM_SETCHECK 2 0] ∧
     CheckBox.check_state ⟨ControlHandle.Hwnd 2⟩
        { sampleTristateWindow with checkCode := 2 } =
      .ok CheckBoxState.Indeterminate
        { sampleTristateWindow with checkCode := 2 }
        [.sendMessage 2 BM_GETCHECK 0 0]) ∧
    CheckBox.check_state ⟨ControlHandle.Hwnd 2⟩ sampleWindow ≠
      .ok CheckBoxState.Indeterminate sampleWindow [.sendMessage 2 BM_GETCHECK 0 0] :=
  ⟨check_state_round_trip.1 2 sampleTristateWindow CheckBoxState.Indeterminate
      (by decide),
   check_state_round_trip.2 2 sampleWindow (Or.inl rfl) sampleWindow
      [.sendMessage 2 BM_GETCHECK 0 0]⟩

/-- C8: every public accessor and mutator of `CheckBox`, called while
the handle is unbound (blank), panics with the `NOT_BOUND` message
having made no native call; and on a handle bound to a native window
the binding-guard panics (`NOT_BOUND`/`BAD_HANDLE`) are unreachable
for every one of them. -/
theorem checkbox_methods_require_bound_handle :
    (∀ (cb : CheckBox) (w : NativeWindow), cb.handle.blank = true →
      CheckBox.tristate cb w = .panicked NOT_BOUND [] ∧
      (∀ tri, CheckBox.set_tristate cb w tri = .panicked NOT_BOUND []) ∧
      CheckBox.check_state cb w = .panicked NOT_BOUND [] ∧
      (∀ s, CheckBox.set_check_state cb w s = .panicked NOT_BOUND []) ∧
      CheckBox.font cb w = .panicked NOT_BOUND [] ∧
      (∀ f, CheckBox.set_font cb w f = .panicked NOT_BOUND []) ∧
      CheckBox.focus cb w = .panicked NOT_BOUND [] ∧
      CheckBox.set_focus cb w = .panicked NOT_BOUND [] ∧
      CheckBox.enabled cb w = .panicked NOT_BOUND [] ∧
      (∀ v, CheckBox.set_enabled cb w v = .panicked NOT_BOUND []) ∧
      CheckBox.visible cb w = .panicked NOT_BOUND [] ∧
      (∀ v, CheckBox.set_visible cb w v = .panicked NOT_BOUND []) ∧
      CheckBox.size cb w = .panicked NOT_BOUND [] ∧
      (∀ x y, CheckBox.set_size cb w x y = .panicked NOT_BOUND []) ∧
      CheckBox.position cb w = .panicked NOT_BOUND [] ∧
      (∀ x y, CheckBox.set_position cb w x y = .panicked NOT_BOUND []) ∧
      CheckBox.text cb w = .panicked NOT_BOUND [] ∧
      (∀ t, CheckBox.set_text cb w t = .panicked NOT_BOUND [])) ∧
    (∀ (h : Nat) (w : NativeWindow),
      (CheckBox.tristate ⟨.Hwnd h⟩ w).isBindingPanic = false ∧
      (∀ tri, (CheckBox.set_tristate ⟨.Hwnd h⟩ w tri).isBindingPanic = false) ∧
      (CheckBox.check_state ⟨.Hwnd h⟩ w).isBindingPanic = false ∧
      (∀ s, (CheckBox.set_check_state ⟨.Hwnd h⟩ w s).isBindingPanic = false) ∧
      (CheckBox.font ⟨.Hwnd h⟩ w).isBindingPanic = false ∧
      (∀ f, (CheckBox.set_font ⟨.Hwnd h⟩ w f).isBindingPanic = false) ∧
      (CheckBox.focus ⟨.Hwnd h⟩ w).isBindingPanic = false ∧
      (CheckBox.set_focus ⟨.Hwnd h⟩ w).isBindingPanic = false ∧
      (CheckBox.enabled ⟨.Hwnd h⟩ w).isBindingPanic = false ∧
      (∀ v, (CheckBox.set_enabled ⟨.Hwnd h⟩ w v).isBindingPanic = false) ∧
      (CheckBox.visible ⟨.Hwnd h⟩ w).isBindingPanic = false ∧
      (∀ v, (CheckBox.set_visible ⟨.Hwnd h⟩ w v).isBindingPanic = false) ∧
      (CheckBox.size ⟨.Hwnd h⟩ w).isBindingPanic = false ∧
      (∀ x y, (CheckBox.set_size ⟨.Hwnd h⟩ w x y).isBindingPanic = false) ∧
      (CheckBox.position ⟨.Hwnd h⟩ w).isBindingPanic = false ∧
      (∀ x y, (CheckBox.set_position ⟨.Hwnd h⟩ w x y).isBindingPanic = false) ∧
      (CheckBox.text ⟨.Hwnd h⟩ w).isBindingPanic = false ∧
      (∀ t, (CheckBox.set_text ⟨.Hwnd h⟩ w t).isBindingPanic = false)) := by
  constructor
  · intro cb w hb
    refine ⟨?_, ?_, ?_, ?_, ?_, ?_, ?_, ?_, ?_, ?_, ?_, ?_, ?_, ?_, ?_, ?_, ?_, ?_⟩ <;>
      · intros
        simp [CheckBox.tristate, CheckBox.set_tristate, CheckBox.check_state,
          CheckBox.set_check_state, CheckBox.font, CheckBox.set_font,
          CheckBox.focus, CheckBox.set_focus, CheckBox.enabled,
          CheckBox.set_enabled, CheckBox.visible, CheckBox.set_visible,
          CheckBox.size, CheckBox.set_size, CheckBox.position,
          CheckBox.set_position, CheckBox.text, CheckBox.set_text, hb]
  · intro h w
    refine ⟨?_, ?_, ?_, ?_, ?_, ?_, ?_, ?_, ?_, ?_, ?_, ?_, ?_, ?_, ?_, ?_, ?_, ?_⟩ <;>
      · intros
        simp only [CheckBox.tristate, CheckBox.set_tristate, CheckBox.check_state,
          CheckBox.set_check_state, CheckBox.font, CheckBox.set_font,
          CheckBox.focus, CheckBox.set_focus, CheckBox.enabled,
          CheckBox.set_enabled, CheckBox.visible, CheckBox.set_visible,
          CheckBox.size, CheckBox.set_size, CheckBox.position,
          CheckBox.set_position, CheckBox.text, CheckBox.set_text,
          ControlHandle.blank, ControlHandle.hwnd]
        split <;> try split <;> try split <;> try split
        all_goals simp_all [MethodOutcome.isBindingPanic, UNREACHABLE_MSG,
          NOT_BOUND, BAD_HANDLE]

/-- Witness for C8: `tristate` on a concrete unbound control panics
with `NOT_BOUND` and no native call; on a concrete bound control its
outcome is not a binding panic. -/
theorem checkbox_methods_require_bound_handle_witness :
    CheckBox.tristate ⟨ControlHandle.NoHandle⟩ sampleWindow =
      .panicked NOT_BOUND [] ∧
    (CheckBox.tristate ⟨ControlHandle.Hwnd 3⟩ sampleWindow).isBindingPanic = false :=
  ⟨(checkbox_methods_require_bound_handle.1 ⟨ControlHandle.NoHandle⟩ sampleWindow
      rfl).1,
   (checkbox_methods_require_bound_handle.2 3 sampleWindow).1⟩

/-- C10: the interceptor `hook_background_color` registers on the
parent returns the created solid brush exactly for the
`WM_CTLCOLORSTATIC` message whose `lparam` is this control's own
handle; for that message addressed to any other child handle, and for
every other message, it returns `None`. -/
theorem hook_background_color_handler_spec :
    ∀ (h : Nat) (w : NativeWindow) (r g b : Nat),
      CheckBox.hook_background_color ⟨.Hwnd h⟩ w (r, g, b) =
        .ok (CheckBox.background_color_handler h (RGB r g b)) w
          [.getWindowParent h, .createSolidBrush r g b,
           .bindRawEventHandler w.parent h] ∧
      ∀ (hwnd msg wp lp : Nat),
        (∀ res, CheckBox.background_color_handler h (RGB r g b) hwnd msg wp lp =
            some res ↔ msg = WM_CTLCOLORSTATIC ∧ lp = h ∧ res = RGB r g b) ∧
        (¬ (msg = WM_CTLCOLORSTATIC ∧ lp = h) →
          CheckBox.background_color_handler h (RGB r g b) hwnd msg wp lp = none) := by
  intro h w r g b
  refine ⟨rfl, ?_⟩
  intro hwnd msg wp lp
  constructor
  · intro res
    rw [CheckBox.background_color_handler]
    split
    · split
      · simp_all [eq_comm]
      · simp_all
    · simp_all
  · intro hne
    rw [CheckBox.background_color_handler]
    split
    · split
      · simp_all
      · rfl
    · rfl

/-- Witness for C10: on a concrete hook at handle `3` with color
`(1,2,3)`, the interceptor returns the brush for `WM_CTLCOLORSTATIC`
addressed to handle `3`, and `None` both for `WM_CTLCOLORSTATIC`
addressed to handle `4` and for an unrelated message. -/
theorem hook_background_color_handler_spec_witness :
    CheckBox.hook_background_color ⟨ControlHandle.Hwnd 3⟩ sampleWindow (1, 2, 3) =
      .ok (CheckBox.background_color_handler 3 (RGB 1 2 3)) sampleWindow
        [.getWindowParent 3, .createSolidBrush 1 2 3,
         .bindRawEventHandler 7 3] ∧
    CheckBox.background_color_handler 3 (RGB 1 2 3) 0 WM_CTLCOLORSTATIC 0 3 =
      some (RGB 1 2 3) ∧
    CheckBox.background_color_handler 3 (RGB 1 2 3) 0 WM_CTLCOLORSTATIC 0 4 = none ∧
    CheckBox.background_color_handler 3 (RGB 1 2 3) 0 0 0 3 = none :=
  ⟨(hook_background_color_handler_spec 3 sampleWindow 1 2 3).1,
   (((hook_background_color_handler_spec 3 sampleWindow 1 2 3).2
      0 WM_CTLCOLORSTATIC 0 3).1 (RGB 1 2 3)).mpr ⟨rfl, rfl, rfl⟩,
   ((hook_background_color_handler_spec 3 sampleWindow 1 2 3).2
      0 WM_CTLCOLORSTATIC 0 4).2 (by decide),
   ((hook_background_color_handler_spec 3 sampleWindow 1 2 3).2
      0 0 0 3).2 (by decide)⟩

end Nwg
